import Mathlib

set_option maxRecDepth 10000

/-!
Verification development for the certificate-verification backend
(`backend/app/services/verification_service.py` and
`backend/app/api/v1/verify.py`).

The matching engine compares OCR-extracted certificate fields against
institution-submitted verified records.  Scores are modelled as exact
rationals (Python floats stay well inside the exactly-representable
range for the small arithmetic done here); the string-similarity routine
is `difflib.SequenceMatcher.ratio` (no junk heuristic: `isjunk=None`,
and the autojunk heuristic only engages on strings of length >= 200,
far beyond certificate fields), embedded as the recursive
longest-matching-block algorithm over ASCII characters.
-/

namespace CertVerify

/-- Word characters for the regex class `\w` (ASCII fragment). -/
def isWordChar (c : Char) : Bool :=
  c.isAlphanum || c = '_'

/-- Whitespace characters for the regex class `\s` (ASCII fragment:
space, tab, newline, carriage return, vertical tab, form feed). -/
def isSpaceChar (c : Char) : Bool :=
  c = ' ' || c = '\t' || c = '\n' || c = '\r' || c = Char.ofNat 11 || c = Char.ofNat 12

/-- Lowercasing of a string, as Python `str.lower()` (ASCII fragment). -/
def lowerStr (s : String) : String :=
  String.mk (s.data.map Char.toLower)

/-- Removal of leading and trailing whitespace, as Python `str.strip()`. -/
def stripSpaces (cs : List Char) : List Char :=
  (((cs.dropWhile isSpaceChar).reverse).dropWhile isSpaceChar).reverse

/-- Normalisation performed by `_calculate_similarity`:
`re.sub(r'[^\w\s]', '', s.lower().strip())`, i.e. lowercase, strip,
then drop every character that is neither a word character nor
whitespace. -/
def normalizeStr (s : String) : List Char :=
  (stripSpaces (s.data.map Char.toLower)).filter (fun c => isWordChar c || isSpaceChar c)

/-- Length of the longest common prefix of two character lists, i.e. the
length of the matching run starting at a given pair of positions. -/
def runLen : List Char → List Char → Nat
  | a :: as, b :: bs => if a = b then runLen as bs + 1 else 0
  | _, _ => 0

/-- All index pairs (i, j) with i < m and j < n, row by row, each row in
ascending j; this is the scan order of `SequenceMatcher.find_longest_match`. -/
def allPairs (m n : Nat) : List (Nat × Nat) :=
  (List.range m).flatMap (fun i => (List.range n).map (fun j => (i, j)))

/-- One step of the longest-match scan: replace the current best triple
(i, j, size) when the run starting at the candidate pair is strictly
longer.  Strict comparison in scan order realises the documented
tie-break of `find_longest_match` (smallest i, then smallest j). -/
def flmStep (a b : List Char) (best : Nat × Nat × Nat) (p : Nat × Nat) : Nat × Nat × Nat :=
  let k := runLen (a.drop p.1) (b.drop p.2)
  if best.2.2 < k then (p.1, p.2, k) else best

/-- The longest matching block of two character lists: the embedding of
`SequenceMatcher.find_longest_match` with no junk, returning
(start in a, start in b, size). -/
def findLongestMatch (a b : List Char) : Nat × Nat × Nat :=
  (allPairs a.length b.length).foldl (flmStep a b) (0, 0, 0)

/-- Total number of matched characters over all matching blocks of
`SequenceMatcher.get_matching_blocks`: take the longest matching block
and recurse on the material to its left and to its right.  Structured
with explicit fuel so that the definition reduces in the kernel; the
wrapper below supplies sufficient fuel. -/
def matchingTotalF : Nat → List Char → List Char → Nat
  | 0, _, _ => 0
  | fuel + 1, a, b =>
    let t := findLongestMatch a b
    if t.2.2 = 0 then 0
    else
      matchingTotalF fuel (a.take t.1) (b.take t.2.1) + t.2.2 +
        matchingTotalF fuel (a.drop (t.1 + t.2.2)) (b.drop (t.2.1 + t.2.2))

/-- Total matched characters between two character lists. -/
def matchingTotal (a b : List Char) : Nat :=
  matchingTotalF (a.length + b.length) a b

/-- The value of `SequenceMatcher.ratio`: twice the matched characters
divided by the total length, and 1.0 when both strings are empty. -/
def seqRatio (a b : List Char) : ℚ :=
  if a.length + b.length = 0 then 1
  else (2 * matchingTotal a b : ℚ) / (a.length + b.length)

/-- The embedding of `_calculate_similarity`: normalise both strings and
take the sequence-matcher ratio. -/
def calculateSimilarity (str1 str2 : String) : ℚ :=
  seqRatio (normalizeStr str1) (normalizeStr str2)

/-- OCR-extracted fields of one certificate (`CertificateData` model);
all four compared columns are nullable.  Database id columns and
timestamps are omitted: the verification logic never reads them. -/
structure CertificateData where
  cert_id : String
  student_name : Option String
  roll_number : Option String
  marks : Option String
  cert_number : Option String
deriving DecidableEq, Repr

/-- Institution-submitted ground truth (`VerifiedRecord` model);
`marks` is the only nullable compared column. -/
structure VerifiedRecord where
  id : String
  student_name : String
  roll_number : String
  marks : Option String
  cert_number : String
  issuer : String
deriving DecidableEq, Repr

/-- Alert severity (`AlertLevel` schema enum). -/
inductive AlertLevel where
  | warning
  | critical
deriving DecidableEq, Repr

/-- An alert row as created by `_create_alerts_if_needed`. -/
structure Alert where
  cert_id : String
  reason : String
  level : AlertLevel
deriving DecidableEq, Repr

/-- The single-quote character used by the Python f-strings when they
quote mismatching field values. -/
def squo : String := String.singleton (Char.ofNat 39)

/-- A value wrapped in single quotes, as in the mismatch messages. -/
def quoted (s : String) : String := squo ++ s ++ squo

/-- Accumulator threaded through the four field comparisons of
`_calculate_match_score`: running score, running `total_fields` weight
(rational, because marks weighs 0.5), and mismatch messages. -/
structure ScoreAcc where
  score : ℚ
  total : ℚ
  mismatches : List String
deriving DecidableEq, Repr

/-- Student-name comparison block of `_calculate_match_score`: both
sides truthy (non-null, non-empty), weight 1.0, similarity with
threshold 0.8; below threshold adds nothing and records a mismatch. -/
def compareNameStep (cd : CertificateData) (vr : VerifiedRecord) (acc : ScoreAcc) : ScoreAcc :=
  match cd.student_name with
  | none => acc
  | some n =>
    if n = "" then acc
    else if vr.student_name = "" then acc
    else
      let sim := calculateSimilarity n vr.student_name
      if sim ≥ (0.8 : ℚ) then
        ⟨acc.score + sim, acc.total + 1, acc.mismatches⟩
      else
        ⟨acc.score, acc.total + 1,
          acc.mismatches ++
            ["Student name mismatch: " ++ quoted n ++ " vs " ++ quoted vr.student_name]⟩

/-- Roll-number comparison block: case-insensitive exact match worth 1.0. -/
def compareRollStep (cd : CertificateData) (vr : VerifiedRecord) (acc : ScoreAcc) : ScoreAcc :=
  match cd.roll_number with
  | none => acc
  | some r =>
    if r = "" then acc
    else if vr.roll_number = "" then acc
    else
      if lowerStr r = lowerStr vr.roll_number then
        ⟨acc.score + 1, acc.total + 1, acc.mismatches⟩
      else
        ⟨acc.score, acc.total + 1,
          acc.mismatches ++
            ["Roll number mismatch: " ++ quoted r ++ " vs " ++ quoted vr.roll_number]⟩

/-- Certificate-number comparison block: case-insensitive exact match
worth 1.0. -/
def compareCertStep (cd : CertificateData) (vr : VerifiedRecord) (acc : ScoreAcc) : ScoreAcc :=
  match cd.cert_number with
  | none => acc
  | some c =>
    if c = "" then acc
    else if vr.cert_number = "" then acc
    else
      if lowerStr c = lowerStr vr.cert_number then
        ⟨acc.score + 1, acc.total + 1, acc.mismatches⟩
      else
        ⟨acc.score, acc.total + 1,
          acc.mismatches ++
            ["Certificate number mismatch: " ++ quoted c ++ " vs " ++ quoted vr.cert_number]⟩

/-- Marks comparison block: weight 0.5, similarity with threshold 0.7;
on pass the contribution is `similarity * 0.5`. -/
def compareMarksStep (cd : CertificateData) (vr : VerifiedRecord) (acc : ScoreAcc) : ScoreAcc :=
  match cd.marks with
  | none => acc
  | some m =>
    match vr.marks with
    | none => acc
    | some vm =>
      if m = "" then acc
      else if vm = "" then acc
      else
        let sim := calculateSimilarity m vm
        if sim ≥ (0.7 : ℚ) then
          ⟨acc.score + sim * (0.5 : ℚ), acc.total + (0.5 : ℚ), acc.mismatches⟩
        else
          ⟨acc.score, acc.total + (0.5 : ℚ),
            acc.mismatches ++ ["Marks mismatch: " ++ quoted m ++ " vs " ++ quoted vm]⟩

/-- The embedding of `_calculate_match_score`: sequentially compare the
four fields, then return `(0, [no-data])` when there is no certificate
data, `(0, [no-comparable-fields])` when no field pair was comparable,
and the weighted average with the collected mismatches otherwise. -/
def calculateMatchScore (certData : Option CertificateData) (vr : VerifiedRecord) :
    ℚ × List String :=
  match certData with
  | none => (0, ["No certificate data available"])
  | some cd =>
    let acc :=
      compareMarksStep cd vr (compareCertStep cd vr (compareRollStep cd vr
        (compareNameStep cd vr ⟨0, 0, []⟩)))
    if acc.total = 0 then (0, ["No comparable fields found"])
    else (acc.score / acc.total, acc.mismatches)

/-- Bounded-accumulator invariant: the running score is nonnegative and
never exceeds the accumulated field weight. -/
def accBounded (acc : ScoreAcc) : Prop := 0 ≤ acc.score ∧ acc.score ≤ acc.total

/-- Score component of a match result. -/
def msScore (certData : Option CertificateData) (m : VerifiedRecord) : ℚ :=
  (calculateMatchScore certData m).1

/-- Mismatch-list component of a match result. -/
def msMismatches (certData : Option CertificateData) (m : VerifiedRecord) : List String :=
  (calculateMatchScore certData m).2

/-- The configured verification threshold
(`settings.VERIFICATION_THRESHOLD`, default `0.8`). -/
def VERIFICATION_THRESHOLD : ℚ := 0.8

/-- The verdict computed by `_calculate_verification_result`. -/
structure VerificationResult where
  is_verified : Bool
  confidence_score : ℚ
  matched_record : Option VerifiedRecord
  mismatches : List String
deriving DecidableEq, Repr

/-- One iteration of the best-candidate loop in
`_calculate_verification_result`: a candidate replaces the current best
triple only when its score is strictly greater. -/
def bestStep (certData : Option CertificateData)
    (acc : ℚ × Option VerifiedRecord × List String) (m : VerifiedRecord) :
    ℚ × Option VerifiedRecord × List String :=
  let r := calculateMatchScore certData m
  if r.1 > acc.1 then (r.1, some m, r.2) else acc

/-- The embedding of `_calculate_verification_result`.  The threshold is
passed explicitly (the source reads `settings.VERIFICATION_THRESHOLD`,
an externally configurable value whose default is
`VERIFICATION_THRESHOLD`). -/
def calculateVerificationResult (threshold : ℚ) (certData : Option CertificateData)
    (matchList : List VerifiedRecord) : VerificationResult :=
  if matchList = [] then
    ⟨false, 0, none, ["No matching verified records found"]⟩
  else
    let best := matchList.foldl (bestStep certData) (0, none, [])
    ⟨decide (best.1 ≥ threshold), best.1, best.2.1, best.2.2⟩

/-- Running maximum of candidate scores, seeded with `init`. -/
def maxScoreFrom (certData : Option CertificateData) (init : ℚ)
    (ms : List VerifiedRecord) : ℚ :=
  ms.foldl (fun q m => max q (msScore certData m)) init

/-- Fixed-point formatting with two decimals, the embedding of the
Python format specifier `:.2f` applied to the nonnegative scores that
occur here (rounding ties upward; the scores formatted by the service
are exact multiples of 1/100 anyway, so the tie-breaking mode is moot). -/
def formatTwoDec (q : ℚ) : String :=
  let n := (⌊q * 100 + 1 / 2⌋ : ℤ).toNat
  toString (n / 100) ++ "." ++
    (if n % 100 < 10 then "0" ++ toString (n % 100) else toString (n % 100))

/-- The embedding of `_create_alerts_if_needed`: three independent
checks, each appending one alert.  Alert persistence (`db.add`,
`db.commit`) is modelled by returning the created alerts. -/
def createAlertsIfNeeded (certId : String) (result : VerificationResult) : List Alert :=
  let alerts : List Alert := []
  let alerts :=
    if !result.is_verified then
      alerts ++
        [⟨certId, "Certificate verification failed - no matching verified records",
          AlertLevel.critical⟩]
    else alerts
  let alerts :=
    if result.confidence_score < (0.5 : ℚ) then
      alerts ++
        [⟨certId, "Low confidence score: " ++ formatTwoDec result.confidence_score,
          AlertLevel.warning⟩]
    else alerts
  let alerts :=
    if result.mismatches.length > 2 then
      alerts ++
        [⟨certId, "Multiple mismatches detected: " ++ toString result.mismatches.length
            ++ " issues", AlertLevel.critical⟩]
    else alerts
  alerts

/-- Python truthiness of an optional string column: `None` and the empty
string are falsy. -/
def truthyOpt : Option String → Bool
  | none => false
  | some s => !(s == "")

/-- Python truthiness of a non-null string column. -/
def truthyStr (s : String) : Bool := !(s == "")

/-- An uploaded certificate row; only the primary key takes part in the
verification flow (uploader, filename, status and timestamps are never
read by it). -/
structure Certificate where
  id : String
deriving DecidableEq, Repr

/-- Caller-supplied verification criteria (`VerificationRequest` schema). -/
structure VerificationRequest where
  student_name : Option String
  roll_number : Option String
  cert_number : Option String
  issuer : Option String
deriving DecidableEq, Repr

/-- Response of one verification run (`VerificationResponse` schema).
The `ai_prediction` field is omitted: the AI stub is outside the
verification core and never affects the verdict. -/
structure VerificationResponse where
  is_verified : Bool
  confidence_score : ℚ
  matched_record : Option VerifiedRecord
  mismatches : List String
  alerts : List Alert
deriving DecidableEq, Repr

/-- The tables read by the verification service. -/
structure Database where
  certificates : List Certificate
  certificateData : List CertificateData
  verifiedRecords : List VerifiedRecord
deriving Repr

/-- Lookup `Certificate` by primary key
(`db.query(Certificate).filter(Certificate.id == cert_id).first()`). -/
def findCertificate (db : Database) (certId : String) : Option Certificate :=
  db.certificates.find? (fun c => c.id == certId)

/-- Lookup `CertificateData` by certificate id. -/
def findCertificateData (db : Database) (certId : String) : Option CertificateData :=
  db.certificateData.find? (fun d => d.cert_id == certId)

/-- Python `a or b` on optional strings: the left value wins when
truthy, otherwise the right value is used as-is. -/
def pyOr (a b : Option String) : Option String :=
  match a with
  | none => b
  | some s => if s = "" then b else some s

/-- Drop a falsy value, as the `{k: v for k, v in criteria.items() if v}`
filter does. -/
def keepTruthy (v : Option String) : Option String :=
  match v with
  | none => none
  | some s => if s = "" then none else some s

/-- The criteria mapping built by `_build_verification_criteria`
(request value preferred, fallback to extracted data; falsy values
dropped). -/
structure Criteria where
  student_name : Option String
  roll_number : Option String
  cert_number : Option String
  issuer : Option String
deriving DecidableEq, Repr

/-- The embedding of `_build_verification_criteria`. -/
def buildVerificationCriteria (request : VerificationRequest)
    (certData : Option CertificateData) : Criteria :=
  let cdField := fun (f : CertificateData → Option String) =>
    match certData with
    | some cd => f cd
    | none => none
  ⟨keepTruthy (pyOr request.student_name (cdField (fun cd => cd.student_name))),
   keepTruthy (pyOr request.roll_number (cdField (fun cd => cd.roll_number))),
   keepTruthy (pyOr request.cert_number (cdField (fun cd => cd.cert_number))),
   keepTruthy request.issuer⟩

/-- Case-insensitive substring containment: the embedding of
SQL `col ILIKE '%value%'`.  (LIKE metacharacters inside the value are
not modelled; none of the verified properties involve them.) -/
def likeContains (col v : String) : Bool :=
  let hay := col.data.map Char.toLower
  let pat := v.data.map Char.toLower
  (List.range (hay.length + 1)).any (fun i => (hay.drop i).take pat.length == pat)

/-- The embedding of `_fuzzy_match_condition`, which despite its name
collapses to a plain ILIKE substring check. -/
def fuzzyMatchCondition (col v : String) : Bool :=
  likeContains col v

/-- The embedding of `_find_matching_records`: empty criteria return no
records; otherwise the conjunction of the per-key conditions filters the
verified records and the first 10 are returned. -/
def findMatchingRecords (db : Database) (criteria : Criteria) : List VerifiedRecord :=
  if criteria.student_name = none ∧ criteria.roll_number = none ∧
      criteria.cert_number = none ∧ criteria.issuer = none then []
  else
    (db.verifiedRecords.filter (fun vr =>
      (match criteria.student_name with
       | some v => likeContains vr.student_name v || fuzzyMatchCondition vr.student_name v
       | none => true) &&
      (match criteria.roll_number with
       | some v => likeContains vr.roll_number v || vr.roll_number == v
       | none => true) &&
      (match criteria.cert_number with
       | some v => vr.cert_number == v
       | none => true) &&
      (match criteria.issuer with
       | some v => likeContains vr.issuer v
       | none => true))).take 10

/-- The embedding of `verify_certificate`: raising
`ValueError("Certificate not found")` becomes the `Except.error` case. -/
def verifyCertificate (db : Database) (certId : String) (request : VerificationRequest) :
    Except String VerificationResponse :=
  match findCertificate db certId with
  | none => Except.error "Certificate not found"
  | some certificate =>
    let certData := findCertificateData db certId
    let criteria := buildVerificationCriteria request certData
    let matchList := findMatchingRecords db criteria
    let result := calculateVerificationResult VERIFICATION_THRESHOLD certData matchList
    let alerts := createAlertsIfNeeded certificate.id result
    Except.ok ⟨result.is_verified, result.confidence_score, result.matched_record,
      result.mismatches, alerts⟩

/-- The `except Exception` handler of `bulk_verify_certificates`: a raised
exception becomes a diagnostic per-id verdict. -/
def handleVerifyOutcome (outcome : Except String VerificationResponse) :
    VerificationResponse :=
  match outcome with
  | Except.ok r => r
  | Except.error e => ⟨false, 0, none, ["Verification error: " ++ e], []⟩

/-- Body of the per-id loop of `bulk_verify_certificates`: look the
certificate up, verify it with a request rebuilt from its extracted
data, or report "Certificate not found"; any raised error is converted
by the handler. -/
def bulkVerifyOne (db : Database) (certId : String) : VerificationResponse :=
  handleVerifyOutcome
    (match findCertificate db certId with
     | some _ =>
       let certData := findCertificateData db certId
       let request : VerificationRequest :=
         ⟨(match certData with | some cd => cd.student_name | none => none),
          (match certData with | some cd => cd.roll_number | none => none),
          (match certData with | some cd => cd.cert_number | none => none),
          none⟩
       verifyCertificate db certId request
     | none => Except.ok ⟨false, 0, none, ["Certificate not found"], []⟩)

/-- The embedding of `bulk_verify_certificates`.  The Python result is a
dict keyed by certificate id; since the per-id verdict is a function of
the database and the id alone, duplicate ids always carry identical
verdicts and the association list below carries the same mapping. -/
def bulkVerifyCertificates (db : Database) (certificateIds : List String) :
    List (String × VerificationResponse) :=
  certificateIds.map (fun certId => (certId, bulkVerifyOne db certId))

/-- Body of the HTTP bulk response (`/verify/bulk`). -/
structure BulkVerifyResponse where
  total_certificates : Nat
  verified : Nat
  failed : Nat
  verification_rate : ℚ
  results : List (String × VerificationResponse)
deriving DecidableEq, Repr

/-- The embedding of the `/verify/bulk` endpoint handler: requests with
more than 100 ids are rejected with HTTP 400 before any verification
work; otherwise the per-id verdicts and summary statistics are
returned. -/
def bulkVerifyEndpoint (db : Database) (certificateIds : List String) :
    Except (Nat × String) BulkVerifyResponse :=
  if certificateIds.length > 100 then
    Except.error (400, "Too many certificates. Maximum 100 per request.")
  else
    let results := bulkVerifyCertificates db certificateIds
    let total := results.length
    let verified := (results.filter (fun r => r.2.is_verified)).length
    Except.ok ⟨total, verified, total - verified,
      if total > 0 then (verified : ℚ) / total else 0, results⟩

/-- Extracted fields of the "Jon Doe" scenario (no marks extracted). -/
def cdJon : CertificateData :=
  ⟨"cert-jon", some "Jon Doe", some "2023002", none, some "CERT-2023-002"⟩

/-- Verified record of the "Jane Doe" scenario (no marks on record). -/
def vrJane : VerifiedRecord :=
  ⟨"vr-1", "Jane Doe", "2023002", none, "CERT-2023-002", "Example University"⟩

/-- Extracted fields with every column missing. -/
def cdEmpty : CertificateData := ⟨"cert-empty", none, none, none, none⟩

/-- Extracted fields identical to `vrJaneFull` on all four columns. -/
def cdJane : CertificateData :=
  ⟨"cert-jane", some "Jane Doe", some "2023002", some "92%", some "CERT-2023-002"⟩

/-- Verified record identical to `cdJane` on all four columns. -/
def vrJaneFull : VerifiedRecord :=
  ⟨"vr-jane", "Jane Doe", "2023002", some "92%", "CERT-2023-002", "Example University"⟩

/-- A database with no rows. -/
def dbEmpty : Database := ⟨[], [], []⟩

theorem runLen_le_left (a b : List Char) : runLen a b ≤ a.length := by
  induction a generalizing b with
  | nil => cases b <;> simp [runLen]
  | cons x as ih =>
    cases b with
    | nil => simp [runLen]
    | cons y bs =>
      simp only [runLen, List.length_cons]
      split
      · exact Nat.succ_le_succ (ih bs)
      · exact Nat.zero_le _

theorem runLen_le_right (a b : List Char) : runLen a b ≤ b.length := by
  induction a generalizing b with
  | nil => cases b <;> simp [runLen]
  | cons x as ih =>
    cases b with
    | nil => simp [runLen]
    | cons y bs =>
      simp only [runLen, List.length_cons]
      split
      · exact Nat.succ_le_succ (ih bs)
      · exact Nat.zero_le _

theorem runLen_self (a : List Char) : runLen a a = a.length := by
  induction a with
  | nil => simp [runLen]
  | cons x as ih => simp [runLen, ih]

theorem foldl_inv {α β : Type} (P : β → Prop) (f : β → α → β) (l : List α) (init : β)
    (h0 : P init) (hf : ∀ acc x, P acc → P (f acc x)) : P (l.foldl f init) := by
  induction l generalizing init with
  | nil => exact h0
  | cons x xs ih => exact ih (f init x) (hf init x h0)

theorem findLongestMatch_sound (a b : List Char) :
    (findLongestMatch a b).2.2 = 0 ∨
      (findLongestMatch a b).2.2 =
        runLen (a.drop (findLongestMatch a b).1) (b.drop (findLongestMatch a b).2.1) := by
  unfold findLongestMatch
  refine foldl_inv
    (fun t => t.2.2 = 0 ∨ t.2.2 = runLen (a.drop t.1) (b.drop t.2.1))
    (flmStep a b) _ _ ?_ ?_
  · exact Or.inl rfl
  · intro acc p hacc
    unfold flmStep
    dsimp only
    split
    · exact Or.inr rfl
    · exact hacc

/-- The size component of the best triple never decreases along the scan. -/
theorem flm_foldl_mono (a b : List Char) (l : List (Nat × Nat)) (init : Nat × Nat × Nat) :
    init.2.2 ≤ (l.foldl (flmStep a b) init).2.2 := by
  induction l generalizing init with
  | nil => exact Nat.le_refl _
  | cons p ps ih =>
    refine Nat.le_trans ?_ (ih (flmStep a b init p))
    unfold flmStep
    dsimp only
    split
    · next h => exact Nat.le_of_lt h
    · exact Nat.le_refl _

theorem findLongestMatch_ge (a b : List Char) (p : Nat × Nat)
    (hp : p ∈ allPairs a.length b.length) :
    runLen (a.drop p.1) (b.drop p.2) ≤ (findLongestMatch a b).2.2 := by
  obtain ⟨l₁, l₂, hsplit⟩ := List.append_of_mem hp
  unfold findLongestMatch
  rw [hsplit, List.foldl_append]
  refine Nat.le_trans ?_ (flm_foldl_mono a b l₂ _)
  show runLen (a.drop p.1) (b.drop p.2) ≤ (flmStep a b (l₁.foldl (flmStep a b) (0, 0, 0)) p).2.2
  unfold flmStep
  dsimp only
  split
  · exact Nat.le_refl _
  · omega

theorem findLongestMatch_self (a : List Char) (ha : a ≠ []) :
    findLongestMatch a a = (0, 0, a.length) := by
  have hlen : 0 < a.length := List.length_pos.mpr ha
  have hmem : ((0, 0) : Nat × Nat) ∈ allPairs a.length a.length := by
    unfold allPairs
    simp only [List.mem_flatMap, List.mem_map, List.mem_range]
    exact ⟨0, hlen, 0, hlen, rfl⟩
  have hge := findLongestMatch_ge a a (0, 0) hmem
  simp only [List.drop_zero, runLen_self] at hge
  have hsound := findLongestMatch_sound a a
  rcases hEq : findLongestMatch a a with ⟨i, j, k⟩
  rw [hEq] at hge hsound
  dsimp only at hge hsound
  have hk0 : k ≠ 0 := by omega
  have hk : k = runLen (a.drop i) (a.drop j) := hsound.resolve_left hk0
  have hle1 : k ≤ a.length - i := by
    have h := runLen_le_left (a.drop i) (a.drop j)
    rw [List.length_drop] at h
    omega
  have hle2 : k ≤ a.length - j := by
    have h := runLen_le_right (a.drop i) (a.drop j)
    rw [List.length_drop] at h
    omega
  have hi : i = 0 := by omega
  have hj : j = 0 := by omega
  have hkl : k = a.length := by omega
  rw [hi, hj, hkl]

theorem matchingTotalF_le (fuel : Nat) :
    ∀ a b : List Char, matchingTotalF fuel a b ≤ a.length ∧ matchingTotalF fuel a b ≤ b.length := by
  induction fuel with
  | zero => intro a b; exact ⟨Nat.zero_le _, Nat.zero_le _⟩
  | succ fuel ih =>
    intro a b
    show (let t := findLongestMatch a b
      if t.2.2 = 0 then 0
      else matchingTotalF fuel (a.take t.1) (b.take t.2.1) + t.2.2 +
        matchingTotalF fuel (a.drop (t.1 + t.2.2)) (b.drop (t.2.1 + t.2.2))) ≤ a.length ∧
      (let t := findLongestMatch a b
      if t.2.2 = 0 then 0
      else matchingTotalF fuel (a.take t.1) (b.take t.2.1) + t.2.2 +
        matchingTotalF fuel (a.drop (t.1 + t.2.2)) (b.drop (t.2.1 + t.2.2))) ≤ b.length
    have hsound := findLongestMatch_sound a b
    rcases hEq : findLongestMatch a b with ⟨i, j, k⟩
    rw [hEq] at hsound
    dsimp only at hsound ⊢
    by_cases hk0 : k = 0
    · simp [hk0]
    · have hk : k = runLen (a.drop i) (b.drop j) := hsound.resolve_left hk0
      have hka : k ≤ a.length - i := by
        have h := runLen_le_left (a.drop i) (b.drop j)
        rw [List.length_drop] at h
        omega
      have hkb : k ≤ b.length - j := by
        have h := runLen_le_right (a.drop i) (b.drop j)
        rw [List.length_drop] at h
        omega
      have hia : i ≤ a.length := by omega
      have hjb : j ≤ b.length := by omega
      have hL := ih (a.take i) (b.take j)
      have hR := ih (a.drop (i + k)) (b.drop (j + k))
      simp only [List.length_take, List.length_drop] at hL hR
      rw [Nat.min_eq_left hia, Nat.min_eq_left hjb] at hL
      rw [if_neg hk0]
      constructor
      · have h1 := hL.1
        have h2 := hR.1
        omega
      · have h1 := hL.2
        have h2 := hR.2
        omega

theorem matchingTotal_le_left (a b : List Char) : matchingTotal a b ≤ a.length :=
  (matchingTotalF_le _ a b).1

theorem matchingTotal_le_right (a b : List Char) : matchingTotal a b ≤ b.length :=
  (matchingTotalF_le _ a b).2

theorem matchingTotalF_nil_nil (fuel : Nat) : matchingTotalF fuel [] [] = 0 := by
  cases fuel with
  | zero => rfl
  | succ fuel => rfl

theorem matchingTotal_self (a : List Char) : matchingTotal a a = a.length := by
  cases ha : a with
  | nil => rfl
  | cons x xs =>
    rw [← ha]
    have hne : a ≠ [] := by rw [ha]; exact List.cons_ne_nil _ _
    have hlen : 0 < a.length := List.length_pos.mpr hne
    unfold matchingTotal
    have hfuel : ∃ f, a.length + a.length = f + 1 := ⟨a.length + a.length - 1, by omega⟩
    obtain ⟨f, hf⟩ := hfuel
    rw [hf]
    show (let t := findLongestMatch a a
      if t.2.2 = 0 then 0
      else matchingTotalF f (a.take t.1) (a.take t.2.1) + t.2.2 +
        matchingTotalF f (a.drop (t.1 + t.2.2)) (a.drop (t.2.1 + t.2.2))) = a.length
    rw [findLongestMatch_self a hne]
    dsimp only
    rw [if_neg (by omega)]
    simp [List.take_zero, List.drop_length, matchingTotalF_nil_nil]

theorem seqRatio_nonneg (a b : List Char) : 0 ≤ seqRatio a b := by
  unfold seqRatio
  split
  · norm_num
  · apply div_nonneg
    · positivity
    · positivity

theorem seqRatio_le_one (a b : List Char) : seqRatio a b ≤ 1 := by
  unfold seqRatio
  split
  · exact le_refl 1
  · next h =>
    have hpos : (0 : ℚ) < (a.length + b.length : ℚ) := by
      have : 0 < a.length + b.length := Nat.pos_of_ne_zero h
      exact_mod_cast this
    rw [div_le_one hpos]
    have h1 := matchingTotal_le_left a b
    have h2 := matchingTotal_le_right a b
    have : 2 * matchingTotal a b ≤ a.length + b.length := by omega
    exact_mod_cast this

theorem seqRatio_self (a : List Char) : seqRatio a a = 1 := by
  unfold seqRatio
  split
  · rfl
  · next h =>
    rw [matchingTotal_self]
    have hpos : (0 : ℚ) < (a.length + a.length : ℚ) := by
      have : 0 < a.length + a.length := Nat.pos_of_ne_zero h
      exact_mod_cast this
    rw [div_eq_one_iff_eq (ne_of_gt hpos)]
    ring

theorem calculateSimilarity_nonneg (s t : String) : 0 ≤ calculateSimilarity s t :=
  seqRatio_nonneg _ _

theorem calculateSimilarity_le_one (s t : String) : calculateSimilarity s t ≤ 1 :=
  seqRatio_le_one _ _

theorem calculateSimilarity_self (s : String) : calculateSimilarity s s = 1 :=
  seqRatio_self _

theorem accBounded_mk {s t : ℚ} {m : List String} (h1 : 0 ≤ s) (h2 : s ≤ t) :
    accBounded ⟨s, t, m⟩ := ⟨h1, h2⟩

theorem compareNameStep_bounded (cd : CertificateData) (vr : VerifiedRecord)
    (acc : ScoreAcc) (h : accBounded acc) : accBounded (compareNameStep cd vr acc) := by
  obtain ⟨h1, h2⟩ := h
  unfold compareNameStep
  split
  · exact ⟨h1, h2⟩
  · next n _ =>
    split
    · exact ⟨h1, h2⟩
    · split
      · exact ⟨h1, h2⟩
      · have hle := calculateSimilarity_le_one n vr.student_name
        have hge := calculateSimilarity_nonneg n vr.student_name
        dsimp only
        split
        · exact accBounded_mk (by linarith) (by linarith)
        · exact accBounded_mk h1 (by linarith)

theorem compareRollStep_bounded (cd : CertificateData) (vr : VerifiedRecord)
    (acc : ScoreAcc) (h : accBounded acc) : accBounded (compareRollStep cd vr acc) := by
  obtain ⟨h1, h2⟩ := h
  unfold compareRollStep
  split
  · exact ⟨h1, h2⟩
  · split
    · exact ⟨h1, h2⟩
    · split
      · exact ⟨h1, h2⟩
      · split
        · exact accBounded_mk (by linarith) (by linarith)
        · exact accBounded_mk h1 (by linarith)

theorem compareCertStep_bounded (cd : CertificateData) (vr : VerifiedRecord)
    (acc : ScoreAcc) (h : accBounded acc) : accBounded (compareCertStep cd vr acc) := by
  obtain ⟨h1, h2⟩ := h
  unfold compareCertStep
  split
  · exact ⟨h1, h2⟩
  · split
    · exact ⟨h1, h2⟩
    · split
      · exact ⟨h1, h2⟩
      · split
        · exact accBounded_mk (by linarith) (by linarith)
        · exact accBounded_mk h1 (by linarith)

theorem compareMarksStep_bounded (cd : CertificateData) (vr : VerifiedRecord)
    (acc : ScoreAcc) (h : accBounded acc) : accBounded (compareMarksStep cd vr acc) := by
  obtain ⟨h1, h2⟩ := h
  unfold compareMarksStep
  split
  · exact ⟨h1, h2⟩
  · next m _ =>
    split
    · exact ⟨h1, h2⟩
    · next vm _ =>
      split
      · exact ⟨h1, h2⟩
      · split
        · exact ⟨h1, h2⟩
        · have hle := calculateSimilarity_le_one m vm
          have hge := calculateSimilarity_nonneg m vm
          dsimp only
          split
          · exact accBounded_mk (by nlinarith) (by nlinarith)
          · exact accBounded_mk h1 (by linarith)

theorem matchScoreAcc_bounded (cd : CertificateData) (vr : VerifiedRecord) :
    accBounded (compareMarksStep cd vr (compareCertStep cd vr (compareRollStep cd vr
      (compareNameStep cd vr ⟨0, 0, []⟩)))) :=
  compareMarksStep_bounded cd vr _ (compareCertStep_bounded cd vr _
    (compareRollStep_bounded cd vr _ (compareNameStep_bounded cd vr _
      ⟨le_refl 0, le_refl 0⟩)))

theorem msScore_nonneg (certData : Option CertificateData) (m : VerifiedRecord) :
    0 ≤ msScore certData m := by
  unfold msScore calculateMatchScore
  cases certData with
  | none => norm_num
  | some cd =>
    have hb := matchScoreAcc_bounded cd m
    obtain ⟨h1, h2⟩ := hb
    dsimp only
    split
    · norm_num
    · next ht =>
      have htpos : (0 : ℚ) < _ := lt_of_le_of_ne (le_trans h1 h2) (Ne.symm ht)
      exact div_nonneg h1 (le_of_lt htpos)

theorem msScore_le_one (certData : Option CertificateData) (m : VerifiedRecord) :
    msScore certData m ≤ 1 := by
  unfold msScore calculateMatchScore
  cases certData with
  | none => norm_num
  | some cd =>
    have hb := matchScoreAcc_bounded cd m
    obtain ⟨h1, h2⟩ := hb
    dsimp only
    split
    · norm_num
    · next ht =>
      have htpos : (0 : ℚ) < _ := lt_of_le_of_ne (le_trans h1 h2) (Ne.symm ht)
      rw [div_le_one htpos]
      exact h2

theorem le_maxScoreFrom (certData : Option CertificateData) (ms : List VerifiedRecord)
    (init : ℚ) : init ≤ maxScoreFrom certData init ms := by
  induction ms generalizing init with
  | nil => exact le_refl _
  | cons m ms ih =>
    exact le_trans (le_max_left init (msScore certData m)) (ih (max init (msScore certData m)))

theorem elem_le_maxScoreFrom (certData : Option CertificateData) (m : VerifiedRecord) :
    ∀ (ms : List VerifiedRecord) (init : ℚ), m ∈ ms →
      msScore certData m ≤ maxScoreFrom certData init ms := by
  intro ms
  induction ms with
  | nil => intro init hm; cases hm
  | cons x xs ih =>
    intro init hm
    rcases List.mem_cons.mp hm with h | h
    · subst h
      exact le_trans (le_max_right init (msScore certData m))
        (le_maxScoreFrom certData xs (max init (msScore certData m)))
    · exact ih (max init (msScore certData x)) h

theorem maxScoreFrom_cases (certData : Option CertificateData) (ms : List VerifiedRecord)
    (init : ℚ) :
    maxScoreFrom certData init ms = init ∨
      ∃ m ∈ ms, maxScoreFrom certData init ms = msScore certData m := by
  induction ms generalizing init with
  | nil => exact Or.inl rfl
  | cons x xs ih =>
    rcases ih (max init (msScore certData x)) with h | ⟨m, hm, h⟩
    · rcases max_choice init (msScore certData x) with hc | hc
      · exact Or.inl (by rw [maxScoreFrom] at h ⊢; rw [List.foldl_cons, h, hc])
      · refine Or.inr ⟨x, List.mem_cons_self _ _, ?_⟩
        rw [maxScoreFrom] at h ⊢
        rw [List.foldl_cons, h, hc]
    · exact Or.inr ⟨m, List.mem_cons_of_mem _ hm, h⟩

theorem bestStep_score (certData : Option CertificateData)
    (acc : ℚ × Option VerifiedRecord × List String) (m : VerifiedRecord) :
    (bestStep certData acc m).1 = max acc.1 (msScore certData m) := by
  unfold bestStep msScore
  dsimp only
  split
  · next h => exact (max_eq_right (le_of_lt h)).symm
  · next h => exact (max_eq_left (le_of_not_lt h)).symm

theorem bestFold_score (certData : Option CertificateData) :
    ∀ (ms : List VerifiedRecord) (acc : ℚ × Option VerifiedRecord × List String),
      (ms.foldl (bestStep certData) acc).1 = maxScoreFrom certData acc.1 ms := by
  intro ms
  induction ms with
  | nil => intro acc; rfl
  | cons x xs ih =>
    intro acc
    rw [List.foldl_cons, ih (bestStep certData acc x)]
    unfold maxScoreFrom
    rw [List.foldl_cons, bestStep_score]

/-- Characterisation of the best-candidate loop: if no candidate beats
the seed score, the accumulator is returned unchanged; otherwise the
result is the triple of the first candidate attaining the running
maximum. -/
theorem bestFold_first (certData : Option CertificateData) :
    ∀ (ms : List VerifiedRecord) (acc : ℚ × Option VerifiedRecord × List String),
      (maxScoreFrom certData acc.1 ms = acc.1 → ms.foldl (bestStep certData) acc = acc) ∧
      (acc.1 < maxScoreFrom certData acc.1 ms →
        ∃ m, ms.find? (fun y => decide (msScore certData y = maxScoreFrom certData acc.1 ms))
            = some m ∧
          ms.foldl (bestStep certData) acc =
            (msScore certData m, some m, msMismatches certData m)) := by
  intro ms
  induction ms with
  | nil =>
    intro acc
    exact ⟨fun _ => rfl, fun h => absurd h (lt_irrefl _)⟩
  | cons x xs ih =>
    intro acc
    have hMeq : maxScoreFrom certData acc.1 (x :: xs)
        = maxScoreFrom certData (max acc.1 (msScore certData x)) xs := rfl
    have hxle : msScore certData x ≤ maxScoreFrom certData acc.1 (x :: xs) := by
      rw [hMeq]
      exact le_trans (le_max_right acc.1 (msScore certData x))
        (le_maxScoreFrom certData xs (max acc.1 (msScore certData x)))
    constructor
    · intro hM
      have hinit : max acc.1 (msScore certData x) ≤ acc.1 := by
        calc max acc.1 (msScore certData x)
            ≤ maxScoreFrom certData (max acc.1 (msScore certData x)) xs :=
              le_maxScoreFrom certData xs _
          _ = acc.1 := by rw [← hMeq]; exact hM
      have hx : msScore certData x ≤ acc.1 := le_trans (le_max_right _ _) hinit
      have hstep : bestStep certData acc x = acc := by
        unfold bestStep
        dsimp only
        split
        · next h => exact absurd h (not_lt.mpr hx)
        · rfl
      rw [List.foldl_cons, hstep]
      apply (ih acc).1
      have hmax : max acc.1 (msScore certData x) = acc.1 := max_eq_left hx
      rw [hMeq, hmax] at hM
      exact hM
    · intro hlt
      by_cases hx : msScore certData x = maxScoreFrom certData acc.1 (x :: xs)
      · have hgt : acc.1 < msScore certData x := by rw [hx]; exact hlt
        have hfind : (x :: xs).find?
            (fun y => decide (msScore certData y = maxScoreFrom certData acc.1 (x :: xs)))
            = some x := by
          apply List.find?_cons_of_pos
          simp [hx]
        refine ⟨x, hfind, ?_⟩
        have hstep : bestStep certData acc x
            = (msScore certData x, some x, msMismatches certData x) := by
          unfold bestStep msScore msMismatches
          dsimp only
          split
          · rfl
          · next h => exact absurd hgt h
        rw [List.foldl_cons, hstep]
        apply (ih _).1
        have hmax : max acc.1 (msScore certData x) = msScore certData x :=
          max_eq_right (le_of_lt hgt)
        rw [hMeq, hmax] at hx
        exact hx.symm
      · have hxlt : msScore certData x < maxScoreFrom certData acc.1 (x :: xs) :=
          lt_of_le_of_ne hxle hx
        have hfind : (x :: xs).find?
            (fun y => decide (msScore certData y = maxScoreFrom certData acc.1 (x :: xs)))
            = xs.find?
              (fun y => decide (msScore certData y = maxScoreFrom certData acc.1 (x :: xs))) := by
          apply List.find?_cons_of_neg
          simp [hx]
        have hacc' : (bestStep certData acc x).1 = max acc.1 (msScore certData x) :=
          bestStep_score certData acc x
        have IH2 := (ih (bestStep certData acc x)).2
        rw [hacc'] at IH2
        rw [← hMeq] at IH2
        have hlt' : max acc.1 (msScore certData x) < maxScoreFrom certData acc.1 (x :: xs) :=
          max_lt hlt hxlt
        obtain ⟨m, hfindm, hfold⟩ := IH2 hlt'
        refine ⟨m, ?_, ?_⟩
        · rw [hfind]
          exact hfindm
        · rw [List.foldl_cons]
          exact hfold

theorem compareNameStep_skip (cd : CertificateData) (vr : VerifiedRecord) (acc : ScoreAcc)
    (h : (truthyOpt cd.student_name && truthyStr vr.student_name) = false) :
    compareNameStep cd vr acc = acc := by
  unfold compareNameStep
  cases hs : cd.student_name with
  | none => rfl
  | some n =>
    rw [hs] at h
    unfold truthyOpt truthyStr at h
    simp only [Bool.and_eq_false_iff, Bool.not_eq_false', beq_iff_eq] at h
    dsimp only
    rcases h with h | h
    · rw [if_pos h]
    · by_cases hn : n = ""
      · rw [if_pos hn]
      · rw [if_neg hn, if_pos h]

theorem compareRollStep_skip (cd : CertificateData) (vr : VerifiedRecord) (acc : ScoreAcc)
    (h : (truthyOpt cd.roll_number && truthyStr vr.roll_number) = false) :
    compareRollStep cd vr acc = acc := by
  unfold compareRollStep
  cases hs : cd.roll_number with
  | none => rfl
  | some n =>
    rw [hs] at h
    unfold truthyOpt truthyStr at h
    simp only [Bool.and_eq_false_iff, Bool.not_eq_false', beq_iff_eq] at h
    dsimp only
    rcases h with h | h
    · rw [if_pos h]
    · by_cases hn : n = ""
      · rw [if_pos hn]
      · rw [if_neg hn, if_pos h]

theorem compareCertStep_skip (cd : CertificateData) (vr : VerifiedRecord) (acc : ScoreAcc)
    (h : (truthyOpt cd.cert_number && truthyStr vr.cert_number) = false) :
    compareCertStep cd vr acc = acc := by
  unfold compareCertStep
  cases hs : cd.cert_number with
  | none => rfl
  | some n =>
    rw [hs] at h
    unfold truthyOpt truthyStr at h
    simp only [Bool.and_eq_false_iff, Bool.not_eq_false', beq_iff_eq] at h
    dsimp only
    rcases h with h | h
    · rw [if_pos h]
    · by_cases hn : n = ""
      · rw [if_pos hn]
      · rw [if_neg hn, if_pos h]

theorem compareMarksStep_skip (cd : CertificateData) (vr : VerifiedRecord) (acc : ScoreAcc)
    (h : (truthyOpt cd.marks && truthyOpt vr.marks) = false) :
    compareMarksStep cd vr acc = acc := by
  unfold compareMarksStep
  cases hs : cd.marks with
  | none => rfl
  | some m =>
    rw [hs] at h
    cases hv : vr.marks with
    | none => rfl
    | some vm =>
      rw [hv] at h
      unfold truthyOpt at h
      simp only [Bool.and_eq_false_iff, Bool.not_eq_false', beq_iff_eq] at h
      dsimp only
      rcases h with h | h
      · rw [if_pos h]
      · by_cases hm : m = ""
        · rw [if_pos hm]
        · rw [if_neg hm, if_pos h]

theorem sim_jon_jane : calculateSimilarity "Jon Doe" "Jane Doe" = 4 / 5 := by
  unfold calculateSimilarity seqRatio
  rw [show matchingTotal (normalizeStr "Jon Doe") (normalizeStr "Jane Doe") = 6 from by decide]
  rw [show (normalizeStr "Jon Doe").length = 7 from by decide]
  rw [show (normalizeStr "Jane Doe").length = 8 from by decide]
  norm_num

theorem formatTwoDec_three_tenths : formatTwoDec (3 / 10) = "0.30" := by
  unfold formatTwoDec
  rw [show (⌊(3 / 10 : ℚ) * 100 + 1 / 2⌋ : ℤ) = 30 from by norm_num]
  rfl

theorem not_three_tenths_ge_threshold : ¬ ((3 : ℚ) / 10 ≥ VERIFICATION_THRESHOLD) := by
  norm_num [VERIFICATION_THRESHOLD]

theorem decide_three_tenths_ge_threshold :
    decide ((3 : ℚ) / 10 ≥ VERIFICATION_THRESHOLD) = false :=
  decide_eq_false_iff_not.mpr not_three_tenths_ge_threshold

theorem matchScore_jon_jane : calculateMatchScore (some cdJon) vrJane = (14 / 15, []) := by
  have hname : compareNameStep cdJon vrJane ⟨0, 0, []⟩ = ⟨4 / 5, 1, []⟩ := by
    unfold compareNameStep cdJon vrJane
    dsimp only
    rw [if_neg (by decide : ¬("Jon Doe" = "")), if_neg (by decide : ¬("Jane Doe" = ""))]
    rw [sim_jon_jane]
    rw [if_pos (by norm_num : (4 / 5 : ℚ) ≥ 0.8)]
    norm_num
  have hroll : compareRollStep cdJon vrJane ⟨4 / 5, 1, []⟩ = ⟨9 / 5, 2, []⟩ := by
    unfold compareRollStep cdJon vrJane
    dsimp only
    rw [if_neg (by decide : ¬("2023002" = ""))]
    rw [if_neg (by decide : ¬("2023002" = ""))]
    rw [if_pos rfl]
    norm_num
  have hcert : compareCertStep cdJon vrJane ⟨9 / 5, 2, []⟩ = ⟨14 / 5, 3, []⟩ := by
    unfold compareCertStep cdJon vrJane
    dsimp only
    rw [if_neg (by decide : ¬("CERT-2023-002" = ""))]
    rw [if_neg (by decide : ¬("CERT-2023-002" = ""))]
    rw [if_pos rfl]
    norm_num
  have hmarks : compareMarksStep cdJon vrJane ⟨14 / 5, 3, []⟩ = ⟨14 / 5, 3, []⟩ := by
    unfold compareMarksStep cdJon
    dsimp only
  unfold calculateMatchScore
  dsimp only
  rw [hname, hroll, hcert, hmarks]
  dsimp only
  rw [if_neg (by norm_num : ¬((3 : ℚ) = 0))]
  norm_num

theorem verdict_jon_jane (threshold : ℚ) :
    calculateVerificationResult threshold (some cdJon) [vrJane]
      = ⟨decide ((14 : ℚ) / 15 ≥ threshold), 14 / 15, some vrJane, []⟩ := by
  unfold calculateVerificationResult
  rw [if_neg (List.cons_ne_nil _ _)]
  dsimp only [List.foldl]
  unfold bestStep
  dsimp only
  rw [matchScore_jon_jane]
  dsimp only
  rw [if_pos (by norm_num : (14 : ℚ) / 15 > 0)]

theorem matchScore_cdEmpty :
    calculateMatchScore (some cdEmpty) vrJane = (0, ["No comparable fields found"]) := by
  unfold calculateMatchScore
  dsimp only
  rw [compareNameStep_skip cdEmpty vrJane _ rfl, compareRollStep_skip cdEmpty vrJane _ rfl,
      compareCertStep_skip cdEmpty vrJane _ rfl, compareMarksStep_skip cdEmpty vrJane _ rfl]
  dsimp only
  rw [if_pos rfl]

theorem verdict_cdEmpty (threshold : ℚ) :
    calculateVerificationResult threshold (some cdEmpty) [vrJane]
      = ⟨decide ((0 : ℚ) ≥ threshold), 0, none, []⟩ := by
  unfold calculateVerificationResult
  rw [if_neg (List.cons_ne_nil _ _)]
  dsimp only [List.foldl]
  unfold bestStep
  dsimp only
  rw [matchScore_cdEmpty]
  dsimp only
  rw [if_neg (by norm_num : ¬((0 : ℚ) > 0))]

theorem maxScoreFrom_cdEmpty : maxScoreFrom (some cdEmpty) 0 [vrJane] = 0 := by
  unfold maxScoreFrom
  dsimp only [List.foldl]
  rw [show msScore (some cdEmpty) vrJane = 0 from by unfold msScore; rw [matchScore_cdEmpty]]
  exact max_self 0

/-- C1: for every extracted-fields value (including the absent case) and
every verified record, the Match Scorer score lies in [0, 1].  The
second output component is a `List String` by the very type of
`calculateMatchScore`, which settles the mismatch-type part of the
claim. -/
theorem claim_C1_score_in_unit_interval (certData : Option CertificateData)
    (vr : VerifiedRecord) :
    0 ≤ (calculateMatchScore certData vr).1 ∧ (calculateMatchScore certData vr).1 ≤ 1 :=
  ⟨msScore_nonneg certData vr, msScore_le_one certData vr⟩

/-- C2: when student name, roll number, certificate number and marks are
pairwise equal non-empty strings, the Match Scorer returns score 1.0
with an empty mismatch list, and the resulting verdict is verified at
the default threshold. -/
theorem claim_C2_exact_match_perfect_score (cd : CertificateData) (vr : VerifiedRecord)
    (n r c m : String)
    (hn : n ≠ "") (hr : r ≠ "") (hc : c ≠ "") (hm : m ≠ "")
    (hcd1 : cd.student_name = some n) (hvr1 : vr.student_name = n)
    (hcd2 : cd.roll_number = some r) (hvr2 : vr.roll_number = r)
    (hcd3 : cd.cert_number = some c) (hvr3 : vr.cert_number = c)
    (hcd4 : cd.marks = some m) (hvr4 : vr.marks = some m) :
    calculateMatchScore (some cd) vr = (1, []) ∧
    (calculateVerificationResult VERIFICATION_THRESHOLD (some cd) [vr]).is_verified = true := by
  have hname : compareNameStep cd vr ⟨0, 0, []⟩ = ⟨1, 1, []⟩ := by
    unfold compareNameStep
    rw [hcd1]
    dsimp only
    rw [if_neg hn, hvr1, if_neg hn, calculateSimilarity_self]
    rw [if_pos (by norm_num : (1 : ℚ) ≥ 0.8)]
    norm_num
  have hroll : compareRollStep cd vr ⟨1, 1, []⟩ = ⟨2, 2, []⟩ := by
    unfold compareRollStep
    rw [hcd2]
    dsimp only
    rw [if_neg hr, hvr2, if_neg hr, if_pos rfl]
    norm_num
  have hcert : compareCertStep cd vr ⟨2, 2, []⟩ = ⟨3, 3, []⟩ := by
    unfold compareCertStep
    rw [hcd3]
    dsimp only
    rw [if_neg hc, hvr3, if_neg hc, if_pos rfl]
    norm_num
  have hmarks : compareMarksStep cd vr ⟨3, 3, []⟩ = ⟨7 / 2, 7 / 2, []⟩ := by
    unfold compareMarksStep
    rw [hcd4, hvr4]
    dsimp only
    rw [if_neg hm, if_neg hm, calculateSimilarity_self]
    rw [if_pos (by norm_num : (1 : ℚ) ≥ 0.7)]
    norm_num
  have hms : calculateMatchScore (some cd) vr = (1, []) := by
    unfold calculateMatchScore
    dsimp only
    rw [hname, hroll, hcert, hmarks]
    dsimp only
    rw [if_neg (by norm_num : ¬((7 : ℚ) / 2 = 0))]
    norm_num
  refine ⟨hms, ?_⟩
  unfold calculateVerificationResult
  rw [if_neg (List.cons_ne_nil _ _)]
  dsimp only [List.foldl]
  unfold bestStep
  dsimp only
  rw [hms]
  dsimp only
  rw [if_pos (by norm_num : (1 : ℚ) > 0)]
  dsimp only
  rw [decide_eq_true_eq]
  norm_num [VERIFICATION_THRESHOLD]

/-- C2 witness at the spec scenario values. -/
theorem claim_C2_witness :
    calculateMatchScore (some cdJane) vrJaneFull = (1, []) ∧
    (calculateVerificationResult VERIFICATION_THRESHOLD (some cdJane) [vrJaneFull]).is_verified
      = true :=
  claim_C2_exact_match_perfect_score cdJane vrJaneFull "Jane Doe" "2023002" "CERT-2023-002" "92%"
    (by decide) (by decide) (by decide) (by decide) rfl rfl rfl rfl rfl rfl rfl rfl

/-- C3 counterexample: at the claimed input the normalized name
similarity is exactly 0.8 — not below 0.8 — so the ≥ 0.8 branch is
taken and no name-mismatch message is recorded (the mismatch list is
empty). -/
theorem claim_C3_counterexample :
    calculateSimilarity "Jon Doe" "Jane Doe" = 4 / 5 ∧
    ¬ (calculateSimilarity "Jon Doe" "Jane Doe" < 0.8) ∧
    (calculateMatchScore (some cdJon) vrJane).2 = [] := by
  refine ⟨sim_jon_jane, ?_, ?_⟩
  · rw [sim_jon_jane]
    norm_num
  · rw [matchScore_jon_jane]

/-- C3 (amended): at the concrete input, roll and certificate numbers
match (contributing 2.0); the normalized name similarity equals exactly
0.8, which satisfies the ≥ 0.8 rule, so the name contributes its
similarity to the score and no mismatch is recorded; the final score
equals (name_sim + 2.0)/3.0 = 14/15; and the verdict is verified
precisely when that score is at least the configured threshold (true at
the default 0.8). -/
theorem claim_C3_amended :
    calculateSimilarity "Jon Doe" "Jane Doe" = 4 / 5 ∧
    calculateMatchScore (some cdJon) vrJane = ((4 / 5 + 2) / 3, []) ∧
    (∀ threshold : ℚ,
      (calculateVerificationResult threshold (some cdJon) [vrJane]).is_verified
        = decide ((4 / 5 + 2) / 3 ≥ threshold)) ∧
    (calculateVerificationResult VERIFICATION_THRESHOLD (some cdJon) [vrJane]).is_verified
      = true := by
  have h43 : ((4 / 5 + 2) / 3 : ℚ) = 14 / 15 := by norm_num
  refine ⟨sim_jon_jane, by rw [matchScore_jon_jane, h43], ?_, ?_⟩
  · intro t
    rw [verdict_jon_jane t, h43]
  · rw [verdict_jon_jane VERIFICATION_THRESHOLD]
    dsimp only
    rw [decide_eq_true_eq]
    norm_num [VERIFICATION_THRESHOLD]

/-- C4: the verdict's confidence score is an upper bound of all
candidate scores and is either 0 (in particular when there are no
candidates or nothing was comparable) or attained by some candidate —
i.e. it is the maximum Match Scorer score over the candidates, or 0. -/
theorem claim_C4_confidence_is_max (threshold : ℚ) (certData : Option CertificateData)
    (ms : List VerifiedRecord) :
    (∀ m ∈ ms, (calculateMatchScore certData m).1
        ≤ (calculateVerificationResult threshold certData ms).confidence_score) ∧
    ((calculateVerificationResult threshold certData ms).confidence_score = 0 ∨
      ∃ m ∈ ms, (calculateVerificationResult threshold certData ms).confidence_score
        = (calculateMatchScore certData m).1) := by
  by_cases hms : ms = []
  · subst hms
    refine ⟨fun m hm => absurd hm (List.not_mem_nil m), Or.inl ?_⟩
    unfold calculateVerificationResult
    rw [if_pos rfl]
  · have hconf : (calculateVerificationResult threshold certData ms).confidence_score
        = maxScoreFrom certData 0 ms := by
      unfold calculateVerificationResult
      rw [if_neg hms]
      dsimp only
      exact bestFold_score certData ms (0, none, [])
    rw [hconf]
    constructor
    · intro m hm
      exact elem_le_maxScoreFrom certData m ms 0 hm
    · rcases maxScoreFrom_cases certData ms 0 with h | ⟨m, hm, h⟩
      · exact Or.inl h
      · exact Or.inr ⟨m, hm, h⟩

/-- C4 witness at a concrete candidate list. -/
theorem claim_C4_witness :
    (calculateMatchScore (some cdJon) vrJane).1
      ≤ (calculateVerificationResult VERIFICATION_THRESHOLD (some cdJon) [vrJane]).confidence_score :=
  (claim_C4_confidence_is_max VERIFICATION_THRESHOLD (some cdJon) [vrJane]).1 vrJane (by simp)

/-- C5: an empty candidate list always yields the fixed unverified
verdict with score 0 and the single "No matching verified records
found" message (the spec quotes the message in lowercase; the second
conjunct relates the two spellings). -/
theorem claim_C5_empty_candidate_list (threshold : ℚ) (certData : Option CertificateData) :
    calculateVerificationResult threshold certData []
      = ⟨false, 0, none, ["No matching verified records found"]⟩ ∧
    lowerStr "No matching verified records found" = "no matching verified records found" := by
  refine ⟨?_, by decide⟩
  unfold calculateVerificationResult
  rw [if_pos rfl]

/-- C6: when no field is non-empty on both sides, the Match Scorer
returns score 0 together with the single "No comparable fields found"
message (a message distinct from every per-field mismatch text), and —
being a total function — raises nothing. -/
theorem claim_C6_no_comparable_fields (cd : CertificateData) (vr : VerifiedRecord)
    (hname : (truthyOpt cd.student_name && truthyStr vr.student_name) = false)
    (hroll : (truthyOpt cd.roll_number && truthyStr vr.roll_number) = false)
    (hcert : (truthyOpt cd.cert_number && truthyStr vr.cert_number) = false)
    (hmarks : (truthyOpt cd.marks && truthyOpt vr.marks) = false) :
    calculateMatchScore (some cd) vr = (0, ["No comparable fields found"]) ∧
    lowerStr "No comparable fields found" = "no comparable fields found" := by
  refine ⟨?_, by decide⟩
  unfold calculateMatchScore
  dsimp only
  rw [compareNameStep_skip cd vr _ hname, compareRollStep_skip cd vr _ hroll,
      compareCertStep_skip cd vr _ hcert, compareMarksStep_skip cd vr _ hmarks]
  dsimp only
  rw [if_pos rfl]

/-- C6 witness: extracted fields all missing against a fully populated
record. -/
theorem claim_C6_witness :
    calculateMatchScore (some cdEmpty) vrJane = (0, ["No comparable fields found"]) ∧
    lowerStr "No comparable fields found" = "no comparable fields found" :=
  claim_C6_no_comparable_fields cdEmpty vrJane rfl rfl rfl rfl

/-- C7 counterexample: with one candidate whose score is 0 (so that the
single candidate trivially attains the maximum, as the last conjunct
states), the loop never updates its seed `(0.0, None, [])`: the verdict
keeps an empty mismatch list and no matched record instead of the
first maximal candidate's triple `(0, vrJane, ["No comparable fields
found"])`. -/
theorem claim_C7_counterexample :
    (calculateVerificationResult VERIFICATION_THRESHOLD (some cdEmpty) [vrJane]).mismatches
      = [] ∧
    (calculateVerificationResult VERIFICATION_THRESHOLD (some cdEmpty) [vrJane]).matched_record
      = none ∧
    msMismatches (some cdEmpty) vrJane = ["No comparable fields found"] ∧
    msScore (some cdEmpty) vrJane = maxScoreFrom (some cdEmpty) 0 [vrJane] := by
  have hsc : msScore (some cdEmpty) vrJane = 0 := by
    unfold msScore
    rw [matchScore_cdEmpty]
  refine ⟨?_, ?_, ?_, ?_⟩
  · rw [verdict_cdEmpty]
  · rw [verdict_cdEmpty]
  · unfold msMismatches
    rw [matchScore_cdEmpty]
  · rw [hsc]
    unfold maxScoreFrom
    dsimp only [List.foldl]
    rw [hsc, max_self]

/-- C7 (amended): the verdict's (score, record, mismatches) triple
equals the triple of the first candidate attaining the maximum score —
ties keep the first seen — provided that maximum is strictly positive;
when every candidate scores 0.0 the loop seed survives and the verdict
carries score 0.0, no matched record and an empty mismatch list. -/
theorem claim_C7_amended (threshold : ℚ) (certData : Option CertificateData)
    (ms : List VerifiedRecord) (hne : ms ≠ []) :
    (0 < maxScoreFrom certData 0 ms →
      ∃ m, ms.find? (fun y => decide (msScore certData y = maxScoreFrom certData 0 ms))
          = some m ∧
        (calculateVerificationResult threshold certData ms).confidence_score
          = msScore certData m ∧
        (calculateVerificationResult threshold certData ms).matched_record = some m ∧
        (calculateVerificationResult threshold certData ms).mismatches
          = msMismatches certData m) ∧
    (maxScoreFrom certData 0 ms = 0 →
      (calculateVerificationResult threshold certData ms).confidence_score = 0 ∧
      (calculateVerificationResult threshold certData ms).matched_record = none ∧
      (calculateVerificationResult threshold certData ms).mismatches = []) := by
  have hv : calculateVerificationResult threshold certData ms
      = ⟨decide ((ms.foldl (bestStep certData) (0, none, [])).1 ≥ threshold),
         (ms.foldl (bestStep certData) (0, none, [])).1,
         (ms.foldl (bestStep certData) (0, none, [])).2.1,
         (ms.foldl (bestStep certData) (0, none, [])).2.2⟩ := by
    unfold calculateVerificationResult
    rw [if_neg hne]
  constructor
  · intro hpos
    obtain ⟨m, hfind, hfold⟩ := (bestFold_first certData ms (0, none, [])).2 hpos
    refine ⟨m, hfind, ?_, ?_, ?_⟩ <;> rw [hv] <;> dsimp only <;> rw [hfold]
  · intro hzero
    have hfold := (bestFold_first certData ms (0, none, [])).1 hzero
    refine ⟨?_, ?_, ?_⟩ <;> rw [hv] <;> dsimp only <;> rw [hfold]

/-- C7 witness: the all-zero branch at a concrete input. -/
theorem claim_C7_amended_witness :
    (calculateVerificationResult VERIFICATION_THRESHOLD (some cdEmpty) [vrJane]).confidence_score
      = 0 ∧
    (calculateVerificationResult VERIFICATION_THRESHOLD (some cdEmpty) [vrJane]).matched_record
      = none ∧
    (calculateVerificationResult VERIFICATION_THRESHOLD (some cdEmpty) [vrJane]).mismatches
      = [] :=
  (claim_C7_amended VERIFICATION_THRESHOLD (some cdEmpty) [vrJane]
    (List.cons_ne_nil _ _)).2 maxScoreFrom_cdEmpty

/-- C8: a verdict with best score 0.3 (which the decision rule marks
unverified, since 0.3 is below the 0.8 threshold) and exactly two
mismatches produces exactly two alerts: the critical
verification-failed alert and the warning low-confidence alert with the
score rendered at two decimals; the multiple-mismatch critical alert
does not fire because 2 is not strictly greater than 2. -/
theorem claim_C8_alert_set (res : VerificationResult) (certId : String)
    (h1 : res.confidence_score = 3 / 10)
    (h2 : res.mismatches.length = 2)
    (h3 : res.is_verified = decide (res.confidence_score ≥ VERIFICATION_THRESHOLD)) :
    createAlertsIfNeeded certId res =
      [⟨certId, "Certificate verification failed - no matching verified records",
        AlertLevel.critical⟩,
       ⟨certId, "Low confidence score: 0.30", AlertLevel.warning⟩] := by
  have hver : res.is_verified = false := by
    rw [h3, h1]
    exact decide_three_tenths_ge_threshold
  unfold createAlertsIfNeeded
  rw [hver, h1, h2]
  dsimp only
  rw [if_pos (by norm_num : (3 : ℚ) / 10 < 0.5)]
  rw [if_neg (by norm_num : ¬((2 : ℕ) > 2))]
  rw [formatTwoDec_three_tenths]
  rfl

/-- C8 witness at a concrete verdict. -/
theorem claim_C8_witness :
    createAlertsIfNeeded "cert-w"
        ⟨false, 3 / 10, none, ["mismatch one", "mismatch two"]⟩ =
      [⟨"cert-w", "Certificate verification failed - no matching verified records",
        AlertLevel.critical⟩,
       ⟨"cert-w", "Low confidence score: 0.30", AlertLevel.warning⟩] :=
  claim_C8_alert_set ⟨false, 3 / 10, none, ["mismatch one", "mismatch two"]⟩ "cert-w"
    rfl rfl decide_three_tenths_ge_threshold.symm

/-- C9: bulk verification maps every input id independently to a
verdict (first conjunct: the result is exactly the per-id map, so no
input can abort the batch or affect a sibling entry); an id with no
certificate row yields the unverified "Certificate not found" verdict;
and a raised exception is converted by the handler into a
"Verification error: <detail>" verdict. -/
theorem claim_C9_bulk_partial_failure (db : Database) (certificateIds : List String) :
    bulkVerifyCertificates db certificateIds
      = certificateIds.map (fun certId => (certId, bulkVerifyOne db certId)) ∧
    (∀ certId, findCertificate db certId = none →
      bulkVerifyOne db certId = ⟨false, 0, none, ["Certificate not found"], []⟩) ∧
    (∀ e, handleVerifyOutcome (Except.error e)
      = ⟨false, 0, none, ["Verification error: " ++ e], []⟩) := by
  refine ⟨rfl, ?_, fun e => rfl⟩
  intro certId hfind
  unfold bulkVerifyOne
  rw [hfind]
  rfl

/-- C9 witness: a missing id and a concrete exception detail. -/
theorem claim_C9_witness :
    bulkVerifyOne dbEmpty "missing-id" = ⟨false, 0, none, ["Certificate not found"], []⟩ ∧
    handleVerifyOutcome (Except.error "boom")
      = ⟨false, 0, none, ["Verification error: " ++ "boom"], []⟩ :=
  ⟨(claim_C9_bulk_partial_failure dbEmpty []).2.1 "missing-id" rfl,
   (claim_C9_bulk_partial_failure dbEmpty []).2.2 "boom"⟩

/-- C10: a bulk request with more than 100 ids is rejected whole with
HTTP 400 — the handler returns the error before computing any per-id
verdict, so the response carries none. -/
theorem claim_C10_bulk_limit (db : Database) (certificateIds : List String)
    (h : certificateIds.length > 100) :
    bulkVerifyEndpoint db certificateIds
      = Except.error (400, "Too many certificates. Maximum 100 per request.") := by
  unfold bulkVerifyEndpoint
  rw [if_pos h]

/-- C10 witness: 101 ids. -/
theorem claim_C10_witness :
    bulkVerifyEndpoint dbEmpty (List.replicate 101 "cert")
      = Except.error (400, "Too many certificates. Maximum 100 per request.") :=
  claim_C10_bulk_limit dbEmpty (List.replicate 101 "cert") (by simp)

end CertVerify

